import Mathlib

/-!
Shallow embedding of the CrawlemonMetaPlugin metadata-lookup adapter
(`src/__init__.py`).  JSON-like values model the data exchanged with the
remote service; the session client, retrieval client, record normalizer and
the identify orchestrator are translated into pure Lean functions.  Network
responses and the JSON codec (Python stdlib, external to the repository)
are abstracted into an environment record; exceptions of the Python runtime
are modelled with an explicit error type.
-/

/-- JSON-like values as produced by `json.loads`: strings, numbers,
booleans, null, arrays, and objects (association lists, first key wins on
lookup as in the plugin's use of `dict.get`). -/
inductive Value where
  | str (s : String)
  | num (n : Int)
  | bool (b : Bool)
  | null
  | list (l : List Value)
  | dict (fields : List (String × Value))

/-- Python exceptions that the plugin's code paths can raise or catch. -/
inductive PyExc where
  | jsonDecodeError
  | keyError (k : String)
  | indexError (msg : String)
  | attributeError (msg : String)
  | valueError (msg : String)
  | typeError (msg : String)
deriving DecidableEq

/-- Result of running a Python code path: a value, or an uncaught exception. -/
inductive PyResult (α : Type) where
  | val (a : α)
  | exc (e : PyExc)

/-- Body of an HTTP response, abstracting the JSON codec: either a
well-formed encoding of a value, or text `json.loads` rejects. -/
inductive Body where
  | json (v : Value)
  | notJson (raw : String)

/-- Outcome of one `urlopen` call: a connection-level `URLError`, a non-2xx
response (raised by `urllib` as `HTTPError`, a subclass of `URLError`), or a
2xx response with a body. -/
inductive NetResult where
  | connError (msg : String)
  | httpError (status : Nat)
  | success (body : Body)

/-- Lookup of a key in a JSON object, first occurrence. -/
def lookupV (f : List (String × Value)) (k : String) : Option Value :=
  match f with
  | [] => none
  | (k2, v) :: rest => if k2 = k then some v else lookupV rest k

/-- Python's `d.get(k, default)` on a JSON object. -/
def getD (f : List (String × Value)) (k : String) (d : Value) : Value :=
  (lookupV f k).getD d

/-- Python's `d.get(k, default)` on a string-to-string mapping
(the `identifiers` argument of `identify`). -/
def lookupD (l : List (String × String)) (k d : String) : String :=
  match l with
  | [] => d
  | (k2, v) :: rest => if k2 = k then v else lookupD rest k d

/-- Python truthiness of a JSON value, as used by `if not data:` and
`if mi.isbn:` in the plugin. -/
def pyTruthy : Value → Bool
  | Value.str s => !s.isEmpty
  | Value.num n => n != 0
  | Value.bool b => b
  | Value.null => false
  | Value.list l => !l.isEmpty
  | Value.dict f => !f.isEmpty

/-- Character membership in a string; for a one-character needle this is
exactly Python's `c in s` substring test used at lines 142 and 178. -/
def hasChar (s : String) (c : Char) : Bool := s.data.contains c

/-- Helper for `pySplit`, accumulating the current chunk in reverse. -/
def pySplitAux (sep : Char) : List Char → List Char → List String
  | [], acc => [String.mk acc.reverse]
  | c :: cs, acc =>
    if c = sep then String.mk acc.reverse :: pySplitAux sep cs []
    else pySplitAux sep cs (c :: acc)

/-- Python's `s.split(sep)` for a one-character separator: every occurrence
of the separator is a cut point and empty chunks are kept
(`"".split(",") == [""]`, `"a,,b".split(",") == ["a","","b"]`). -/
def pySplit (s : String) (sep : Char) : List String := pySplitAux sep s.data []

/-- Author/tag splitting exactly as written at lines 141-145 and 177-181 of
`src/__init__.py`: if the string contains an ASCII comma, an ASCII space or
a full-width comma, it is split with `split(",")`; otherwise it is wrapped
into a one-element list. -/
def splitField (s : String) : List String :=
  if hasChar s ',' || hasChar s ' ' || hasChar s '，' then pySplit s ','
  else [s]

/-- Modelled from the spec: the delimiter-priority splitting rule the spec
describes for author/tag strings — "split it on a comma, an ASCII space, or
a full-width comma (checked in that priority order — first matching
delimiter type splits the whole string into parts)".  Written from the
spec's words, for comparison with `splitField` taken from the code. -/
def splitFieldSpec (s : String) : List String :=
  if hasChar s ',' then pySplit s ','
  else if hasChar s ' ' then pySplit s ' '
  else if hasChar s '，' then pySplit s '，'
  else [s]

/-- Whitespace predicate of Python's `str.strip()` (Unicode whitespace:
ASCII blanks, the C1 separators, NBSP, the general-punctuation spaces, the
ideographic space, and the line/paragraph separators). -/
def pyIsSpace (c : Char) : Bool :=
  let n := c.toNat
  n = 32 || (9 ≤ n && n ≤ 13) || (28 ≤ n && n ≤ 31) || n = 133 || n = 160 ||
  n = 5760 || (8192 ≤ n && n ≤ 8202) || n = 8232 || n = 8233 || n = 8239 ||
  n = 8287 || n = 12288

/-- Python's `s.strip()`: remove leading and trailing whitespace. -/
def pyStrip (s : String) : String :=
  String.mk (((s.data.dropWhile pyIsSpace).reverse.dropWhile pyIsSpace).reverse)

/-- Calendar date as produced by `datetime.strptime` (time fields are not
used by the plugin). -/
structure PyDate where
  year : Nat
  month : Nat
  day : Nat
deriving DecidableEq

/-- ASCII digit test (the `\d` of CPython's `_strptime` patterns restricted
to ASCII input). -/
def isDig (c : Char) : Bool := '0' ≤ c && c ≤ '9'

/-- Numeric value of an ASCII digit. -/
def dv (c : Char) : Nat := c.toNat - 48

/-- Two-digit month, CPython `_strptime` pattern `1[0-2]|0[1-9]`. -/
def month2digit (a b : Char) : Option Nat :=
  if a = '1' && ('0' ≤ b && b ≤ '2') then some (10 + dv b)
  else if a = '0' && ('1' ≤ b && b ≤ '9') then some (dv b)
  else none

/-- One-digit month, pattern `[1-9]`. -/
def month1digit (a : Char) : Option Nat :=
  if '1' ≤ a && a ≤ '9' then some (dv a) else none

/-- Two-digit day, CPython `_strptime` pattern `3[01]|[12]\d|0[1-9]`. -/
def day2digit (a b : Char) : Option Nat :=
  if a = '3' && (b = '0' || b = '1') then some (30 + dv b)
  else if (a = '1' || a = '2') && isDig b then some (10 * dv a + dv b)
  else if a = '0' && ('1' ≤ b && b ≤ '9') then some (dv b)
  else none

/-- One-digit day, pattern `[1-9]`. -/
def day1digit (a : Char) : Option Nat :=
  if '1' ≤ a && a ≤ '9' then some (dv a) else none

/-- Match a one-or-two digit field: the two-digit alternatives are tried
first, falling back to the one-digit alternative, as in the regex
alternation order.  In the five formats of the plugin the field is always
followed by a non-digit literal or the end of input, so committing to the
two-digit match whenever it succeeds agrees with regex backtracking. -/
def parseNum2or1 (two : Char → Char → Option Nat) (one : Char → Option Nat) :
    List Char → Option (Nat × List Char)
  | a :: b :: rest =>
    match two a b with
    | some n => some (n, rest)
    | none => (one a).map (fun n => (n, b :: rest))
  | [a] => (one a).map (fun n => (n, []))
  | [] => none

/-- Exactly four ASCII digits, the `%Y` directive. -/
def year4 : List Char → Option (Nat × List Char)
  | a :: b :: c :: d :: rest =>
    if isDig a && isDig b && isDig c && isDig d then
      some (1000 * dv a + 100 * dv b + 10 * dv c + dv d, rest)
    else none
  | _ => none

/-- Match one literal character of the format string. -/
def litChar (c : Char) : List Char → Option (List Char)
  | x :: rest => if x = c then some rest else none
  | [] => none

/-- Gregorian leap-year rule used by `datetime.date`. -/
def isLeap (y : Nat) : Bool := (y % 4 = 0 && y % 100 != 0) || y % 400 = 0

/-- Length of a month as validated by `datetime.date`. -/
def daysInMonth (y m : Nat) : Nat :=
  if m = 2 then (if isLeap y then 29 else 28)
  else if m = 4 || m = 6 || m = 9 || m = 11 then 30
  else 31

/-- Construction of `datetime.date(y, m, d)`: `ValueError` (here `none`)
outside the calendar's range, `MINYEAR = 1` included. -/
def mkDate (y m d : Nat) : Option PyDate :=
  if 1 ≤ y && y ≤ 9999 && 1 ≤ m && m ≤ 12 && 1 ≤ d && d ≤ daysInMonth y m then
    some ⟨y, m, d⟩
  else none

/-- Full match of a `%Y<s1>%m<s2>%d` format, with an optional trailing
literal (the `日` of `%Y年%m月%d日`); the whole input must be consumed, as
`strptime` rejects unconverted trailing data. -/
def parseYMD (s1 s2 : Char) (trail : Option Char) (l : List Char) : Option PyDate := do
  let (y, r1) ← year4 l
  let r2 ← litChar s1 r1
  let (m, r3) ← parseNum2or1 month2digit month1digit r2
  let r4 ← litChar s2 r3
  let (d, r5) ← parseNum2or1 day2digit day1digit r4
  let r6 ← match trail with
    | none => some r5
    | some c => litChar c r5
  if r6 = [] then mkDate y m d else none

/-- Full match of the `%Y年%m月` format; `strptime` defaults the day to 1. -/
def parseYM (l : List Char) : Option PyDate := do
  let (y, r1) ← year4 l
  let r2 ← litChar '年' r1
  let (m, r3) ← parseNum2or1 month2digit month1digit r2
  let r4 ← litChar '月' r3
  if r4 = [] then mkDate y m 1 else none

/-- The ordered format list of line 157 of `src/__init__.py`:
`('%Y-%m-%d', '%Y年%m月%d日', '%Y年%m月', '%Y/%m/%d', '%Y.%m.%d')`. -/
def strptimeFormats : List (List Char → Option PyDate) :=
  [ parseYMD '-' '-' none
  , parseYMD '年' '月' (some '日')
  , parseYM
  , parseYMD '/' '/' none
  , parseYMD '.' '.' none ]

/-- First defined element of a list of options. -/
def firstSome {α : Type} : List (Option α) → Option α
  | [] => none
  | some a :: _ => some a
  | none :: rest => firstSome rest

/-- The `for fmt in (...)` loop of lines 157-167: the first format that
parses wins; if every format raises `ValueError` the result is `None`. -/
def parsePubdate (s : String) : Option PyDate :=
  firstSome (strptimeFormats.map (fun p => p s.data))

/-- Canonical metadata record, the observable fields the plugin sets on a
calibre `MetaInformation` object (the calibre class itself is an external
collaborator; only the values the plugin stores are modelled). -/
structure MetaInformation where
  title : Value
  authors : Value
  isbn : Value
  publisher : Value
  pubdate : Option PyDate
  comments : Value
  tags : Value
  identifiers : List (String × Value)

/-- Normalization of one mapping record, lines 139-187 of
`src/__init__.py`.  The only statement of that block that can raise is
`item.get('pubdate', '').strip()` at line 151, which sits outside every
`try` and raises `AttributeError` whenever the pubdate value present in the
record is not a string; everything else degrades per-field. -/
def normalizeRecord (item : List (String × Value)) : Except PyExc MetaInformation :=
  let authors0 := getD item "authors" (Value.list [])
  let authors :=
    match authors0 with
    | Value.str s => Value.list ((splitField s).map Value.str)
    | v => v
  let isbn := getD item "isbn" (Value.str "")
  match getD item "pubdate" (Value.str "") with
  | Value.str ps0 =>
    let ps := pyStrip ps0
    let pubdate := if ps = "" then none else parsePubdate ps
    let tags0 := getD item "tags" (Value.list [])
    let tags :=
      match tags0 with
      | Value.str s => Value.list ((splitField s).map Value.str)
      | v => v
    Except.ok
      { title := getD item "title" (Value.str "")
        authors := authors
        isbn := isbn
        publisher := getD item "publisher" (Value.str "")
        pubdate := pubdate
        comments := getD item "comments" (Value.str "")
        tags := tags
        identifiers := if pyTruthy isbn then [("isbn", isbn)] else [] }
  | _ => Except.error (PyExc.attributeError "strip")

/-- Mapping test on a JSON value (`isinstance(item, dict)`). -/
def isDict : Value → Bool
  | Value.dict _ => true
  | _ => false

/-- The `for item in data:` loop of lines 135-188: non-mapping entries are
logged and skipped; each mapping entry is normalized and emitted; an
uncaught exception while normalizing one entry aborts the iteration, so the
records already emitted stay emitted and the rest of the batch is lost. -/
def processItems : List Value → List MetaInformation × Option PyExc
  | [] => ([], none)
  | Value.dict f :: rest =>
    match normalizeRecord f with
    | Except.ok mi =>
      let r := processItems rest
      (mi :: r.1, r.2)
    | Except.error e => ([], some e)
  | _ :: rest => processItems rest

/-- The pubdate value a record would hand to `.strip()` is a string (also
when the field is absent, since the default `''` is a string). -/
def pubdateIsStr (f : List (String × Value)) : Bool :=
  match getD f "pubdate" (Value.str "") with
  | Value.str _ => true
  | _ => false

/-- An uppercase hexadecimal digit. -/
def hexDigitU (n : Nat) : Char :=
  if n < 10 then Char.ofNat (48 + n) else Char.ofNat (55 + n)

/-- Bytes `urllib.parse.quote` leaves unescaped with its default
`safe='/'`: ASCII letters, digits, `_ . - ~` and the slash. -/
def safeByte (b : Nat) : Bool :=
  (65 ≤ b && b ≤ 90) || (97 ≤ b && b ≤ 122) || (48 ≤ b && b ≤ 57) ||
  b = 95 || b = 46 || b = 45 || b = 126 || b = 47

/-- UTF-8 encoding of one character as a byte list. -/
def utf8Encode (c : Char) : List Nat :=
  let n := c.toNat
  if n < 128 then [n]
  else if n < 2048 then [192 + n / 64, 128 + n % 64]
  else if n < 65536 then [224 + n / 4096, 128 + (n / 64) % 64, 128 + n % 64]
  else [240 + n / 262144, 128 + (n / 4096) % 64, 128 + (n / 64) % 64, 128 + n % 64]

/-- Percent-encoding of one character, byte by byte. -/
def quoteChar (c : Char) : List Char :=
  ((utf8Encode c).map
    (fun b => if safeByte b then [Char.ofNat b]
              else ['%', hexDigitU (b / 16), hexDigitU (b % 16)])).flatten

/-- Python's `urllib.parse.quote(s)` with the default `safe='/'`. -/
def quote (s : String) : String := String.mk (s.data.map quoteChar).flatten

/-- String lookup among the format parameters. -/
def lookupStr (l : List (String × String)) (k : String) : Option String :=
  match l with
  | [] => none
  | (k2, v) :: rest => if k2 = k then some v else lookupStr rest k

/-- Scan a replacement-field name up to its terminator (closing brace,
conversion marker `!`, or colon); inside square brackets every character,
braces and colons included, belongs to the name, as in CPython's
`parse_field`; an opening brace outside brackets is an error and an
unterminated field is an error. -/
def scanFieldName (inBr : Bool) (acc : List Char) :
    List Char → Except PyExc (List Char × Char × List Char)
  | [] => Except.error (PyExc.valueError "expected closing brace before end of string")
  | c :: rest =>
    if inBr then
      if c = ']' then scanFieldName false (c :: acc) rest
      else scanFieldName true (c :: acc) rest
    else if c = '[' then scanFieldName true (c :: acc) rest
    else if c = '{' then
      Except.error (PyExc.valueError "unexpected opening brace in field name")
    else if c = '}' || c = '!' || c = ':' then Except.ok (acc.reverse, c, rest)
    else scanFieldName false (c :: acc) rest

/-- Scan a format spec up to the field's closing brace, counting nested
braces as CPython's markup iterator does; an unterminated spec is an
error. -/
def scanSpec (nest : Nat) (acc : List Char) :
    List Char → Except PyExc (List Char × List Char)
  | [] => Except.error (PyExc.valueError "unmatched opening brace in format spec")
  | c :: rest =>
    if c = '{' then scanSpec (nest + 1) (c :: acc) rest
    else if c = '}' then
      match nest with
      | 0 => Except.ok (acc.reverse, rest)
      | n + 1 => scanSpec n (c :: acc) rest
    else scanSpec nest (c :: acc) rest

/-- Attribute and index accessors of a replacement-field name
(`name.attr`, `name[key]`). -/
inductive Accessor where
  | attr (name : String)
  | index (key : String)

/-- Split the leading component of a field name: everything before the
first dot or opening bracket. -/
def splitHead (acc : List Char) : List Char → List Char × List Char
  | [] => (acc.reverse, [])
  | c :: rest =>
    if c = '.' || c = '[' then (acc.reverse, c :: rest)
    else splitHead (c :: acc) rest

/-- Scan an index key up to the closing bracket. -/
def scanBracketKey (acc : List Char) : List Char → Except PyExc (List Char × List Char)
  | [] => Except.error (PyExc.valueError "expected closing bracket in field name")
  | c :: rest =>
    if c = ']' then Except.ok (acc.reverse, rest)
    else scanBracketKey (c :: acc) rest

/-- Parse the accessor chain that follows the first component of a field
name; an empty attribute or index is an error, and only a dot or a bracket
may follow a closing bracket, as in CPython's field-name iterator.  The
fuel always exceeds the name length at the call site. -/
def parseAccessors : Nat → List Char → Except PyExc (List Accessor)
  | 0, _ => Except.error (PyExc.valueError "field name accessor fuel exhausted")
  | fuel + 1, l =>
    match l with
    | [] => Except.ok []
    | '.' :: rest =>
      let p := splitHead [] rest
      if p.1.isEmpty then Except.error (PyExc.valueError "Empty attribute in format string")
      else (parseAccessors fuel p.2).map (fun as => Accessor.attr (String.mk p.1) :: as)
    | '[' :: rest =>
      match scanBracketKey [] rest with
      | Except.ok (key, rest2) =>
        if key.isEmpty then
          Except.error (PyExc.valueError "Empty attribute in format string")
        else (parseAccessors fuel rest2).map (fun as => Accessor.index (String.mk key) :: as)
      | Except.error e => Except.error e
    | _ :: _ =>
      Except.error
        (PyExc.valueError "Only a dot or a bracket may follow a closing bracket in a field name")

/-- Number denoted by a digit list. -/
def natOfDigits (l : List Char) : Nat := l.foldl (fun acc c => 10 * acc + dv c) 0

/-- Nonempty all-ASCII-digit test; CPython turns such an argument name into
a positional index. -/
def allDigits (l : List Char) : Bool := !l.isEmpty && l.all isDig

/-- Application of one accessor to a string value: attribute access is
modelled as `AttributeError` (the only attributes a `str` actually has are
its methods, whose formatted representation embeds a runtime memory address
and is outside a shallow embedding); an all-digit index selects a character
or raises `IndexError`, any other index raises `TypeError`, as in Python. -/
def applyAccessor (v : String) : Accessor → Except PyExc String
  | Accessor.attr nm =>
    Except.error (PyExc.attributeError ("str object has no attribute " ++ nm))
  | Accessor.index key =>
    if allDigits key.data then
      match v.data.drop (natOfDigits key.data) with
      | c :: _ => Except.ok (String.mk [c])
      | [] => Except.error (PyExc.indexError "string index out of range")
    else Except.error (PyExc.typeError "string indices must be integers")

/-- Application of an accessor chain, left to right. -/
def applyAccessors (v : String) : List Accessor → Except PyExc String
  | [] => Except.ok v
  | a :: rest =>
    match applyAccessor v a with
    | Except.ok v2 => applyAccessors v2 rest
    | Except.error e => Except.error e

/-- Lowercase hexadecimal digit. -/
def hexLower (n : Nat) : Char :=
  if n < 10 then Char.ofNat (48 + n) else Char.ofNat (87 + n)

/-- Escaping of one character inside repr-style quoting: backslash, the
active quote, newline, carriage return and tab get two-character escapes;
C0 and C1 control characters (plus DEL, NBSP and the soft hyphen) get a
two-digit hex escape; in ascii mode every character above 127 is hex- or
unicode-escaped.  Printability classes of higher code points are not
modelled: repr keeps them verbatim here. -/
def pyReprEscapeChar (q : Char) (ascii : Bool) (c : Char) : List Char :=
  let n := c.toNat
  if c = '\\' then ['\\', '\\']
  else if c = q then ['\\', q]
  else if c = '\n' then ['\\', 'n']
  else if c = '\r' then ['\\', 'r']
  else if c = '\t' then ['\\', 't']
  else if n < 32 || (127 ≤ n && n ≤ 160) || n = 173 then
    ['\\', 'x', hexLower (n / 16), hexLower (n % 16)]
  else if ascii && 128 ≤ n then
    if n < 256 then ['\\', 'x', hexLower (n / 16), hexLower (n % 16)]
    else if n < 65536 then
      ['\\', 'u', hexLower (n / 4096 % 16), hexLower (n / 256 % 16),
       hexLower (n / 16 % 16), hexLower (n % 16)]
    else
      ['\\', 'U', hexLower (n / 268435456 % 16), hexLower (n / 16777216 % 16),
       hexLower (n / 1048576 % 16), hexLower (n / 65536 % 16),
       hexLower (n / 4096 % 16), hexLower (n / 256 % 16),
       hexLower (n / 16 % 16), hexLower (n % 16)]
  else [c]

/-- Python repr (and ascii) of a string: quoted with a single quote unless
the text contains one and no double quote. -/
def pyReprStr (ascii : Bool) (v : String) : String :=
  let q := if v.data.contains '\'' && !(v.data.contains '"') then '"' else '\''
  String.mk (q :: (v.data.map (pyReprEscapeChar q ascii)).flatten ++ [q])

/-- The `!s`, `!r`, `!a` conversions; any other conversion character is a
`ValueError`, checked after the field lookup as in CPython. -/
def convertField (conv : Option Char) (v : String) : Except PyExc String :=
  match conv with
  | none => Except.ok v
  | some c =>
    if c = 's' then Except.ok v
    else if c = 'r' then Except.ok (pyReprStr false v)
    else if c = 'a' then Except.ok (pyReprStr true v)
    else Except.error (PyExc.valueError ("Unknown conversion specifier " ++ String.mk [c]))

/-- Parsed pieces of a format spec, mirroring CPython's
`parse_internal_render_format_spec`. -/
structure SpecParts where
  fill : Char
  align : Option Char
  sign : Option Char
  zFlag : Bool
  altFlag : Bool
  width : Option Nat
  grouping : Option Char
  precision : Option Nat
  typeC : Option Char

/-- Alignment characters of a format spec. -/
def isAlignChar (c : Char) : Bool := c = '<' || c = '>' || c = '^' || c = '='

/-- Leading run of ASCII digits. -/
def takeDigits (acc : List Char) : List Char → List Char × List Char
  | [] => (acc.reverse, [])
  | c :: rest => if isDig c then takeDigits (c :: acc) rest else (acc.reverse, c :: rest)

/-- Guard raising a Python error when the condition holds. -/
def specGuard (b : Bool) (e : PyExc) : Except PyExc Unit :=
  if b then Except.error e else Except.ok ()

/-- Parse a format spec in CPython's field order: fill/align pair, sign,
z flag, alternate flag, zero-fill flag (only when no fill was given),
width, one grouping character (a second, different one is an error),
precision after a dot (digits required), then at most one type character;
a grouping character is rejected at parse time when the type is not one of
the numeric presentation types that allow it. -/
def parseSpecParts (spec : List Char) : Except PyExc SpecParts := do
  let fa :=
    match spec with
    | a :: b :: rest =>
      if isAlignChar b then (a, (some b : Option Char), true, rest)
      else if isAlignChar a then (' ', some a, false, b :: rest)
      else (' ', none, false, spec)
    | [a] =>
      if isAlignChar a then (' ', (some a : Option Char), false, ([] : List Char))
      else (' ', none, false, spec)
    | [] => (' ', (none : Option Char), false, ([] : List Char))
  let (fill0, align, fillSpecified, r1) := fa
  let (sign, r2) :=
    match r1 with
    | c :: rest =>
      if c = '+' || c = '-' || c = ' ' then ((some c : Option Char), rest) else (none, r1)
    | [] => ((none : Option Char), [])
  let (zF, r3) :=
    match r2 with
    | c :: rest => if c = 'z' then (true, rest) else (false, r2)
    | [] => (false, ([] : List Char))
  let (altF, r4) :=
    match r3 with
    | c :: rest => if c = '#' then (true, rest) else (false, r3)
    | [] => (false, ([] : List Char))
  let (fill1, r5) :=
    match r4 with
    | c :: rest => if c = '0' && !fillSpecified then ('0', rest) else (fill0, r4)
    | [] => (fill0, ([] : List Char))
  let (wds, r6) := takeDigits [] r5
  let width : Option Nat := if wds.isEmpty then none else some (natOfDigits wds)
  let (grouping, r7) :=
    match r6 with
    | c :: rest =>
      if c = ',' || c = '_' then ((some c : Option Char), rest) else (none, r6)
    | [] => ((none : Option Char), [])
  specGuard
    (match grouping, r7 with
     | some g, c :: _ => (c = ',' || c = '_') && c ≠ g
     | _, _ => false)
    (PyExc.valueError "Cannot specify both a comma and an underscore in a format spec")
  let pr ←
    match r7 with
    | '.' :: rest =>
      let pd := takeDigits [] rest
      if pd.1.isEmpty then
        Except.error (PyExc.valueError "Format specifier missing precision")
      else Except.ok ((some (natOfDigits pd.1) : Option Nat), pd.2)
    | _ => Except.ok ((none : Option Nat), r7)
  let (precision, r8) := pr
  let typeC ←
    match r8 with
    | [] => Except.ok (none : Option Char)
    | [t] => Except.ok (some t)
    | _ => Except.error (PyExc.valueError "Invalid format specifier for an object of type str")
  specGuard
    (match grouping, typeC with
     | some g, some t =>
       !(t = 'd' || t = 'e' || t = 'f' || t = 'g' || t = 'E' || t = 'G' ||
         t = '%' || t = 'F' ||
         (g = '_' && (t = 'b' || t = 'o' || t = 'x' || t = 'X')))
     | _, _ => false)
    (PyExc.valueError "Cannot specify grouping with this format code")
  Except.ok
    { fill := fill1, align := align, sign := sign, zFlag := zF, altFlag := altF,
      width := width, grouping := grouping, precision := precision, typeC := typeC }

/-- Rendering of a string through a parsed format spec, in the check order
observed of CPython: unknown presentation type, then grouping, sign,
negative zero coercion, alternate form and equals alignment are rejected
for strings; then the value is truncated to the precision and padded to the
width with the fill character (left alignment by default; centering puts
the extra fill on the right). -/
def formatStrSpec (v : String) (spec : List Char) : Except PyExc String := do
  let p ← parseSpecParts spec
  specGuard
    (match p.typeC with
     | some t => t ≠ 's'
     | none => false)
    (PyExc.valueError "Unknown format code for an object of type str")
  specGuard p.grouping.isSome (PyExc.valueError "Cannot specify grouping with str")
  specGuard p.sign.isSome (PyExc.valueError "Sign not allowed in string format specifier")
  specGuard p.zFlag
    (PyExc.valueError "Negative zero coercion not allowed in string format specifier")
  specGuard p.altFlag
    (PyExc.valueError "Alternate form not allowed in string format specifier")
  specGuard (p.align = some '=')
    (PyExc.valueError "Equals alignment not allowed in string format specifier")
  let v2 :=
    match p.precision with
    | some prc => String.mk (v.data.take prc)
    | none => v
  let w := p.width.getD 0
  let len := v2.data.length
  if w ≤ len then Except.ok v2
  else
    let pad := w - len
    let al := p.align.getD '<'
    if al = '>' then Except.ok (String.mk (List.replicate pad p.fill ++ v2.data))
    else if al = '^' then
      Except.ok (String.mk (List.replicate (pad / 2) p.fill ++ v2.data ++
        List.replicate (pad - pad / 2) p.fill))
    else Except.ok (String.mk (v2.data ++ List.replicate pad p.fill))

/-- Core loop of Python `str.format` over a template, faithful to CPython:
literal text is copied and doubled braces are escapes; a replacement field
is parsed into name, conversion and spec; an empty or all-digit argument
name is positional and raises `IndexError` (the plugin passes keyword
arguments only), a missing keyword raises `KeyError`, accessors are
applied, then the conversion, then the spec — recursively expanded first
when it contains braces.  The first fuel argument exceeds any reachable
recursion at the call site; the second is CPython's string recursion
depth, 2 at the top level, whose exhaustion is the Max-string-recursion
error. -/
def pyFormatAux (vars : List (String × String)) :
    Nat → Nat → List Char → Except PyExc (List Char)
  | 0, _, _ => Except.error (PyExc.valueError "format fuel exhausted")
  | _ + 1, 0, _ => Except.error (PyExc.valueError "Max string recursion exceeded")
  | fuel + 1, depth + 1, l =>
    match l with
    | [] => Except.ok []
    | c :: rest =>
      if c = '{' then
        match rest with
        | [] =>
          Except.error (PyExc.valueError "Single opening brace encountered in format string")
        | c2 :: rest2 =>
          if c2 = '{' then (pyFormatAux vars fuel (depth + 1) rest2).map (fun t => '{' :: t)
          else do
            let (nameCs, term, r1) ← scanFieldName false [] rest
            let cs ←
              if term = '}' then
                Except.ok ((none : Option Char), ([] : List Char), r1)
              else if term = '!' then
                match r1 with
                | [] =>
                  Except.error
                    (PyExc.valueError "end of string while looking for conversion specifier")
                | cv :: r1b =>
                  match r1b with
                  | [] => Except.error (PyExc.valueError "unmatched opening brace in format spec")
                  | t2 :: r1c =>
                    if t2 = '}' then Except.ok (some cv, ([] : List Char), r1c)
                    else if t2 = ':' then
                      (scanSpec 0 [] r1c).map (fun p => (some cv, p.1, p.2))
                    else
                      Except.error (PyExc.valueError "expected colon after conversion specifier")
              else
                (scanSpec 0 [] r1).map (fun p => ((none : Option Char), p.1, p.2))
            let (conv, specCs, r2) := cs
            let nm := splitHead [] nameCs
            let accs ← parseAccessors (nameCs.length + 1) nm.2
            let v0 ←
              if nm.1.isEmpty || allDigits nm.1 then
                Except.error (PyExc.indexError
                  ("Replacement index " ++ toString (natOfDigits nm.1) ++
                   " out of range for positional args tuple"))
              else
                match lookupStr vars (String.mk nm.1) with
                | some v => Except.ok v
                | none => Except.error (PyExc.keyError (String.mk nm.1))
            let v1 ← applyAccessors v0 accs
            let v2 ← convertField conv v1
            let specExp ←
              if specCs.contains '{' || specCs.contains '}' then
                pyFormatAux vars fuel depth specCs
              else Except.ok specCs
            let v3 ← formatStrSpec v2 specExp
            (pyFormatAux vars fuel (depth + 1) r2).map (fun t => v3.data ++ t)
      else if c = '}' then
        match rest with
        | c2 :: rest2 =>
          if c2 = '}' then (pyFormatAux vars fuel (depth + 1) rest2).map (fun t => '}' :: t)
          else
            Except.error (PyExc.valueError "Single closing brace encountered in format string")
        | [] =>
          Except.error (PyExc.valueError "Single closing brace encountered in format string")
      else (pyFormatAux vars fuel (depth + 1) rest).map (fun t => c :: t)

/-- Python's `template.format(**vars)` for the keyword-only call the plugin
makes at line 115. -/
def pyFormat (template : String) (vars : List (String × String)) : Except PyExc String :=
  (pyFormatAux vars (2 * template.data.length + 4) 2 template.data).map
    (fun l => String.mk l)

/-- The per-invocation configuration values (`self.prefs`) the identify
flow reads.  The `actionsPref` field is the configured actions string seen
through the JSON codec abstraction: either the value it encodes or an
unparseable text. -/
structure Prefs where
  request_url : String
  actionsPref : Body
  cmd : String
  scroll_to_bottom : Bool
  max_items : Int

/-- The environment of one identify invocation: the configuration and the
responses the network returns for the two POST calls. -/
structure Env where
  prefs : Prefs
  sessionResp : NetResult
  retrieveResp : NetResult

/-- Session creation, lines 44-57: `URLError` (which includes the
`HTTPError` raised on a non-2xx status) is caught and turned into `None`;
a malformed JSON body raises `json.JSONDecodeError`, which is not a
`URLError` and escapes; a JSON body without a `session_id` key raises
`KeyError`, which also escapes. -/
def create_session (resp : NetResult) : PyResult (Option Value) :=
  match resp with
  | NetResult.connError _ => PyResult.val none
  | NetResult.httpError _ => PyResult.val none
  | NetResult.success (Body.notJson _) => PyResult.exc PyExc.jsonDecodeError
  | NetResult.success (Body.json v) =>
    match v with
    | Value.dict f =>
      match lookupV f "session_id" with
      | some sid => PyResult.val (some sid)
      | none => PyResult.exc (PyExc.keyError "session_id")
    | _ => PyResult.exc (PyExc.typeError "subscript on non-mapping body")

/-- Parsing of the `actions` configuration string inside `retrieve_data`,
lines 63-68: a `json.JSONDecodeError` is caught, a warning is logged and
the empty list is substituted. -/
def parseActions (b : Body) : Value :=
  match b with
  | Body.json v => v
  | Body.notJson _ => Value.list []

/-- The request body `retrieve_data` builds at lines 70-79. -/
structure RetrieveRequest where
  cmd : String
  url : String
  fields : List String
  session_id : Value
  scroll_to_bottom : Bool
  max_items : Int
  localFlag : Bool
  actions : Value

/-- Construction of the retrieval request body: `cmd` falls back to the
query when the configured command string is empty (`self.prefs['cmd'] or
query`), the field list is fixed, `local` is always true and the actions
come from `parseActions`. -/
def buildRequest (p : Prefs) (sid : Value) (q url : String) : RetrieveRequest :=
  { cmd := if p.cmd ≠ "" then p.cmd else q
    url := url
    fields := ["title", "authors", "isbn", "publisher", "pubdate", "comments", "tags"]
    session_id := sid
    scroll_to_bottom := p.scroll_to_bottom
    max_items := p.max_items
    localFlag := true
    actions := parseActions p.actionsPref }

/-- Response half of `retrieve_data`, lines 83-92: `URLError`
(connection failure or non-2xx) is caught and yields `None`; a malformed
JSON body raises `json.JSONDecodeError`, which escapes; on a JSON object
the `result` key is read with default `[]`; `result.get` on a non-object
body raises. -/
def retrieveResult (resp : NetResult) : PyResult (Option Value) :=
  match resp with
  | NetResult.connError _ => PyResult.val none
  | NetResult.httpError _ => PyResult.val none
  | NetResult.success (Body.notJson _) => PyResult.exc PyExc.jsonDecodeError
  | NetResult.success (Body.json v) =>
    match v with
    | Value.dict f => PyResult.val (some (getD f "result" (Value.list [])))
    | _ => PyResult.exc (PyExc.attributeError "get on non-mapping body")

/-- Python truthiness of the optional `title` argument (`None` and the
empty string are falsy) as a defaulted string. -/
def optStr : Option String → String
  | none => ""
  | some s => s

/-- The `format_params` dictionary of lines 105-111: the three keys start
as the empty string and each is set to the percent-encoded input only when
the input is truthy (`if isbn:`, `if title:`,
`if authors and authors[0]:`). -/
def formatParamsOf (title : Option String) (authors : Option (List String))
    (identifiers : List (String × String)) : List (String × String) :=
  let isbn := lookupD identifiers "isbn" ""
  let pIsbn := if isbn ≠ "" then quote isbn else ""
  let pTitle :=
    match title with
    | some s => if s ≠ "" then quote s else ""
    | none => ""
  let pAuthor :=
    match authors with
    | some (s :: _) => if s ≠ "" then quote s else ""
    | _ => ""
  [("isbn", pIsbn), ("title", pTitle), ("author", pAuthor)]

/-- The `query = isbn or title` expression of line 121: the ISBN when it is
truthy, else the defaulted title string. -/
def queryOf (identifiers : List (String × String)) (title : Option String) : String :=
  if lookupD identifiers "isbn" "" ≠ "" then lookupD identifiers "isbn" ""
  else optStr title

/-- First truthy author (`authors and authors[0]` of line 110) as a
defaulted string. -/
def firstAuthor : Option (List String) → String
  | some (s :: _) => s
  | _ => ""

/-- Observable steps of one identify invocation: the session POST, the
logging of a successfully formatted URL, the retrieval POST with its body,
and each record pushed to `result_queue`. -/
inductive Event where
  | sessionCall
  | urlFormatted (url : String)
  | retrieveCall (req : RetrieveRequest)
  | emit (mi : MetaInformation)

/-- Records pushed to the result queue during a trace. -/
def emittedRecords (tr : List Event) : List MetaInformation :=
  tr.filterMap (fun e =>
    match e with
    | Event.emit mi => some mi
    | _ => none)

/-- The identify orchestrator, lines 94-190: create a session and abort
when line 97's truthiness check `if not session_id:` fails — on `None` and
equally on any falsy session id extracted from the body (empty string,
zero, false, null, empty containers) — then format the request URL (abort on `KeyError`, other formatting
errors escape), check that an ISBN or title query exists (abort otherwise),
retrieve (abort on `None`, also on a falsy — e.g. empty — result list),
then normalize and emit record by record.  A truthy non-list `result` value
iterates: over characters of a string or keys of an object, every element a
non-mapping that is skipped, while numbers and booleans raise `TypeError`. -/
def identify (env : Env) (title : Option String) (authors : Option (List String))
    (identifiers : List (String × String)) : List Event × PyResult Unit :=
  match create_session env.sessionResp with
  | PyResult.exc e => ([Event.sessionCall], PyResult.exc e)
  | PyResult.val none => ([Event.sessionCall], PyResult.val ())
  | PyResult.val (some sid) =>
    if !pyTruthy sid then ([Event.sessionCall], PyResult.val ())
    else
    match pyFormat env.prefs.request_url (formatParamsOf title authors identifiers) with
    | Except.error (PyExc.keyError _) => ([Event.sessionCall], PyResult.val ())
    | Except.error e => ([Event.sessionCall], PyResult.exc e)
    | Except.ok url =>
      let q := queryOf identifiers title
      if q = "" then ([Event.sessionCall, Event.urlFormatted url], PyResult.val ())
      else
        let req := buildRequest env.prefs sid q url
        let pre := [Event.sessionCall, Event.urlFormatted url, Event.retrieveCall req]
        match retrieveResult env.retrieveResp with
        | PyResult.exc e => (pre, PyResult.exc e)
        | PyResult.val none => (pre, PyResult.val ())
        | PyResult.val (some data) =>
          if pyTruthy data then
            match data with
            | Value.list items =>
              let r := processItems items
              (pre ++ r.1.map Event.emit,
               match r.2 with
               | some e => PyResult.exc e
               | none => PyResult.val ())
            | Value.str _ => (pre, PyResult.val ())
            | Value.dict _ => (pre, PyResult.val ())
            | _ => (pre, PyResult.exc (PyExc.typeError "result not iterable"))
          else (pre, PyResult.val ())

/-- Eta rule for strings built from their character list. -/
theorem strMkData (s : String) : String.mk s.data = s := rfl

/-- Splitting a list that does not contain the separator yields one chunk:
the accumulator followed by the remaining input. -/
theorem pySplitAux_no_sep (sep : Char) (l : List Char) :
    ∀ acc : List Char, l.contains sep = false →
      pySplitAux sep l acc = [String.mk (acc.reverse ++ l)] := by
  induction l with
  | nil => intro acc _; simp [pySplitAux]
  | cons c cs ih =>
    intro acc h
    rw [List.contains_cons, Bool.or_eq_false_iff] at h
    have hc : ¬ c = sep := by
      intro he
      rw [he] at h
      simp at h
    rw [pySplitAux, if_neg hc, ih (c :: acc) h.2]
    simp

/-- Claim C1 (amended): whenever the author/tag string contains any of the
three delimiters (ASCII comma, ASCII space, full-width comma) it is split
on the ASCII comma alone; otherwise it becomes a one-element list — which
makes the whole normalization extensionally equal to a plain comma split,
so a string containing only spaces or full-width commas is NOT split at
those delimiters. -/
theorem splitField_eq_comma_split (s : String) : splitField s = pySplit s ',' := by
  unfold splitField
  split
  · rfl
  · rename_i h
    rw [Bool.not_eq_true, Bool.or_eq_false_iff, Bool.or_eq_false_iff] at h
    unfold pySplit
    rw [pySplitAux_no_sep ',' s.data [] h.1.1]
    simp [strMkData]

/-- Claim C1 (counterexample): the string "a b" contains an ASCII space and
no ASCII comma, yet the code keeps it whole, while the spec's
delimiter-priority rule would split it into its space-separated parts. -/
theorem splitField_space_counterexample :
    splitField "a b" = ["a b"] ∧ splitFieldSpec "a b" = ["a", "b"] ∧
      splitField "a b" ≠ ["a", "b"] := by
  refine ⟨by decide, by decide, by decide⟩

/-- Claim C2 (counterexample): a raw record that IS a mapping but whose
pubdate value is not a string (here an empty list) makes line 151's
`.strip()` raise `AttributeError`: the record produces no canonical record
and the following, perfectly well-formed record of the batch is lost too. -/
theorem processItems_nonstring_pubdate_aborts :
    processItems [Value.dict [("pubdate", Value.list [])],
        Value.dict [("title", Value.str "ok")]] =
      ([], some (PyExc.attributeError "strip")) := rfl

/-- Normalization of a mapping record succeeds whenever the value handed to
`.strip()` is a string (including the default `''` used when the field is
absent). -/
theorem normalizeRecord_ok_of_pubdateIsStr (f : List (String × Value))
    (h : pubdateIsStr f = true) : ∃ mi, normalizeRecord f = Except.ok mi := by
  unfold pubdateIsStr at h
  unfold normalizeRecord
  cases hv : getD f "pubdate" (Value.str "") <;> rw [hv] at h <;> simp at h
  exact ⟨_, rfl⟩

/-- Claim C2 (amended): every raw mapping record whose pubdate value (when
present) is a string produces exactly one canonical record and the batch
loop never raises; the restriction to string pubdates is forced by the
counterexample above. -/
theorem processItems_total_of_string_pubdates (items : List Value)
    (h : ∀ f, Value.dict f ∈ items → pubdateIsStr f = true) :
    (processItems items).2 = none ∧
      (processItems items).1.length = items.countP isDict := by
  induction items with
  | nil => simp [processItems]
  | cons v rest ih =>
    have hrest : ∀ f, Value.dict f ∈ rest → pubdateIsStr f = true :=
      fun f hf => h f (List.mem_cons_of_mem _ hf)
    have hr := ih hrest
    cases v with
    | dict f =>
      obtain ⟨mi, hmi⟩ :=
        normalizeRecord_ok_of_pubdateIsStr f (h f (List.mem_cons_self _ _))
      simp [processItems, hmi, List.countP_cons, isDict, hr.1, hr.2]
    | str s => simpa [processItems, List.countP_cons, isDict] using hr
    | num n => simpa [processItems, List.countP_cons, isDict] using hr
    | bool b => simpa [processItems, List.countP_cons, isDict] using hr
    | null => simpa [processItems, List.countP_cons, isDict] using hr
    | list l => simpa [processItems, List.countP_cons, isDict] using hr

/-- Witness for the amended claim C2 at a concrete batch: one mapping
record with an absent pubdate plus one non-mapping entry normalize with no
exception and exactly one canonical record. -/
theorem processItems_total_of_string_pubdates_witness :
    (∀ f, Value.dict f ∈ [Value.dict [("title", Value.str "T")], Value.str "x"] →
        pubdateIsStr f = true) ∧
      ((processItems [Value.dict [("title", Value.str "T")], Value.str "x"]).2 = none ∧
        (processItems [Value.dict [("title", Value.str "T")], Value.str "x"]).1.length =
          [Value.dict [("title", Value.str "T")], Value.str "x"].countP isDict) := by
  have h : ∀ f, Value.dict f ∈ [Value.dict [("title", Value.str "T")], Value.str "x"] →
      pubdateIsStr f = true := by
    intro f hf
    simp at hf
    rw [hf]
    rfl
  exact ⟨h, processItems_total_of_string_pubdates _ h⟩

/-- Claim C8: a non-mapping entry of the retrieved list is skipped: the
loop emits nothing for it, raises nothing, and the remaining entries are
processed exactly as if the entry were not there. -/
theorem processItems_skips_nonmapping (v : Value) (rest : List Value)
    (h : isDict v = false) : processItems (v :: rest) = processItems rest := by
  cases v with
  | dict f => simp [isDict] at h
  | str s => rfl
  | num n => rfl
  | bool b => rfl
  | null => rfl
  | list l => rfl

/-- Witness for claim C8: a string entry is skipped and the mapping behind
it is still normalized. -/
theorem processItems_skips_nonmapping_witness :
    isDict (Value.str "oops") = false ∧
      processItems [Value.str "oops", Value.dict []] =
        processItems [Value.dict []] :=
  ⟨rfl, processItems_skips_nonmapping _ _ rfl⟩

/-- First-success semantics of a list of options: if position i holds
`some d` and every earlier position holds `none`, the scan returns `d`. -/
theorem firstSome_of_get {α : Type} (l : List (Option α)) :
    ∀ (i : Nat) (hi : i < l.length) (d : α), l.get ⟨i, hi⟩ = some d →
      (∀ (j : Nat) (hj : j < i), l.get ⟨j, Nat.lt_trans hj hi⟩ = none) →
      firstSome l = some d := by
  induction l with
  | nil => intro i hi; exact absurd hi (by simp)
  | cons a rest ih =>
    intro i hi d hget hprev
    cases i with
    | zero =>
      have ha : a = some d := hget
      rw [ha]
      rfl
    | succ n =>
      have ha : a = none := hprev 0 (Nat.succ_pos n)
      rw [ha]
      have hlen : n < rest.length := by
        have := hi
        simp at this
        omega
      have hget2 : rest.get ⟨n, hlen⟩ = some d := hget
      have hprev2 : ∀ (j : Nat) (hj : j < n),
          rest.get ⟨j, Nat.lt_trans hj hlen⟩ = none := by
        intro j hj
        have := hprev (j + 1) (Nat.succ_lt_succ hj)
        exact this
      exact ih n hlen d hget2 hprev2

/-- Claim C3: for a record whose pubdate field is the string `s`, the
normalization succeeds, and its pubdate is absent when `s` trims to empty
and otherwise is the result of the format chain on the trimmed string; and
the chain realizes first-match semantics over the ordered format list
`%Y-%m-%d`, `%Y年%m月%d日`, `%Y年%m月`, `%Y/%m/%d`, `%Y.%m.%d` — an input no
format matches yields an absent date rather than an exception. -/
theorem normalizeRecord_pubdate_formats (f : List (String × Value)) (s : String)
    (h : getD f "pubdate" (Value.str "") = Value.str s) :
    (∃ mi, normalizeRecord f = Except.ok mi ∧
        mi.pubdate = (if pyStrip s = "" then none else parsePubdate (pyStrip s))) ∧
      (∀ (t : List Char) (i : Nat) (hi : i < strptimeFormats.length) (d : PyDate),
        strptimeFormats.get ⟨i, hi⟩ t = some d →
        (∀ (j : Nat) (hj : j < i), strptimeFormats.get ⟨j, Nat.lt_trans hj hi⟩ t = none) →
        parsePubdate (String.mk t) = some d) := by
  constructor
  · unfold normalizeRecord
    rw [h]
    exact ⟨_, rfl, rfl⟩
  · intro t i hi d hget hprev
    unfold parsePubdate
    have hmap : ∀ (j : Nat) (hj : j < (strptimeFormats.map (fun p => p t)).length),
        (strptimeFormats.map (fun p => p t)).get ⟨j, hj⟩ =
          strptimeFormats.get ⟨j, by simpa using hj⟩ t := by
      intro j hj
      simp [List.getElem_map]
    have hi2 : i < (strptimeFormats.map (fun p => p t)).length := by simpa using hi
    apply firstSome_of_get _ i hi2 d
    · rw [hmap i hi2]
      exact hget
    · intro j hj
      rw [hmap j (Nat.lt_trans hj hi2)]
      exact hprev j hj

/-- Witness for claim C3 at a concrete record: the pubdate string
" 2021年5月 " trims to a non-empty string, fails `%Y-%m-%d` and
`%Y年%m月%d日`, and is parsed by the third format `%Y年%m月` as
2021-05-01. -/
theorem normalizeRecord_pubdate_formats_witness :
    getD [("pubdate", Value.str " 2021年5月 ")] "pubdate" (Value.str "") =
        Value.str " 2021年5月 " ∧
      ((∃ mi, normalizeRecord [("pubdate", Value.str " 2021年5月 ")] = Except.ok mi ∧
          mi.pubdate = (if pyStrip " 2021年5月 " = "" then none
                        else parsePubdate (pyStrip " 2021年5月 "))) ∧
        (∀ (t : List Char) (i : Nat) (hi : i < strptimeFormats.length) (d : PyDate),
          strptimeFormats.get ⟨i, hi⟩ t = some d →
          (∀ (j : Nat) (hj : j < i),
            strptimeFormats.get ⟨j, Nat.lt_trans hj hi⟩ t = none) →
          parsePubdate (String.mk t) = some d)) ∧
      parsePubdate (pyStrip " 2021年5月 ") = some ⟨2021, 5, 1⟩ :=
  ⟨rfl, normalizeRecord_pubdate_formats _ _ rfl, by decide⟩

/-- Claim C6 (counterexample): a 2xx session response whose body is not
well-formed JSON does not yield the failure result — `json.loads` raises
`JSONDecodeError`, which is not a `URLError` and therefore escapes
`create_session` uncaught. -/
theorem create_session_badjson_raises :
    create_session (NetResult.success (Body.notJson "oops")) =
      PyResult.exc PyExc.jsonDecodeError := rfl

/-- Claim C6 (amended): `create_session` returns the failure result `None`,
with no retry, on a connection error and on a non-2xx HTTP status (both
surface as `URLError`, which is caught); a response body that is not
well-formed JSON instead raises an uncaught `JSONDecodeError`. -/
theorem create_session_failure_modes :
    (∀ msg, create_session (NetResult.connError msg) = PyResult.val none) ∧
      (∀ st, create_session (NetResult.httpError st) = PyResult.val none) ∧
      (∀ raw, create_session (NetResult.success (Body.notJson raw)) =
        PyResult.exc PyExc.jsonDecodeError) :=
  ⟨fun _ => rfl, fun _ => rfl, fun _ => rfl⟩

/-- Claim C5: whenever session creation does not yield a session id (it
returns `None` on any `URLError`, including the `HTTPError` of a non-2xx
response, or raises), identify emits zero records and the retrieval POST is
never attempted. -/
theorem identify_no_session_no_retrieve (env : Env) (title : Option String)
    (authors : Option (List String)) (identifiers : List (String × String))
    (h : ∀ v, create_session env.sessionResp ≠ PyResult.val (some v)) :
    emittedRecords (identify env title authors identifiers).1 = [] ∧
      ∀ req, Event.retrieveCall req ∉ (identify env title authors identifiers).1 := by
  cases hc : create_session env.sessionResp with
  | exc e => simp [identify, hc, emittedRecords]
  | val o =>
    cases o with
    | none => simp [identify, hc, emittedRecords]
    | some v => exact absurd hc (h v)

/-- Demo configuration shared by the concrete witnesses below: the default
actions string is unparseable, the command override is empty and the URL
template only uses the `isbn` placeholder. -/
def demoPrefs : Prefs :=
  { request_url := "s{isbn}"
    actionsPref := Body.notJson "not json"
    cmd := ""
    scroll_to_bottom := false
    max_items := -1 }

/-- Demo session response carrying the session id "S". -/
def demoSession : NetResult :=
  NetResult.success (Body.json (Value.dict [("session_id", Value.str "S")]))

/-- Demo environment whose session call fails with a 500 status. -/
def envHttp500 : Env :=
  { prefs := demoPrefs
    sessionResp := NetResult.httpError 500
    retrieveResp := NetResult.connError "down" }

/-- Witness for claim C5: with a non-2xx session response, identify over a
concrete environment emits nothing and never issues the retrieval call. -/
theorem identify_no_session_no_retrieve_witness :
    (∀ v, create_session envHttp500.sessionResp ≠ PyResult.val (some v)) ∧
      (emittedRecords (identify envHttp500 none none []).1 = [] ∧
        ∀ req, Event.retrieveCall req ∉ (identify envHttp500 none none []).1) := by
  have h : ∀ v, create_session envHttp500.sessionResp ≠ PyResult.val (some v) := by
    intro v hv
    simp [create_session, envHttp500] at hv
  exact ⟨h, identify_no_session_no_retrieve _ _ _ _ h⟩

/-- The empty retrieval response of claim C4: the remote answers 2xx with
body `{"result": []}`. -/
def emptyResultResp : NetResult :=
  NetResult.success (Body.json (Value.dict [("result", Value.list [])]))

/-- Truthiness of the empty JSON array (the falsy empty result list). -/
theorem pyTruthy_nil : pyTruthy (Value.list []) = false := rfl

/-- Claim C4: when retrieval returns `{"result": []}`, identify emits zero
records on every path, and whenever the flow actually reaches the retrieval
call (a truthy session id obtained, URL formatted, query present) it
terminates cleanly right after it — the empty list is caught by the
retrieval-failure check `if not data:` and no normalization happens. -/
theorem identify_empty_result_emits_nothing (env : Env) (title : Option String)
    (authors : Option (List String)) (identifiers : List (String × String))
    (h : env.retrieveResp = emptyResultResp) :
    emittedRecords (identify env title authors identifiers).1 = [] ∧
      (∀ sid url,
        create_session env.sessionResp = PyResult.val (some sid) →
        pyTruthy sid = true →
        pyFormat env.prefs.request_url (formatParamsOf title authors identifiers) =
          Except.ok url →
        queryOf identifiers title ≠ "" →
        identify env title authors identifiers =
          ([Event.sessionCall, Event.urlFormatted url,
            Event.retrieveCall (buildRequest env.prefs sid (queryOf identifiers title) url)],
           PyResult.val ())) := by
  constructor
  · cases hc : create_session env.sessionResp with
    | exc e => simp [identify, hc, emittedRecords]
    | val o =>
      cases o with
      | none => simp [identify, hc, emittedRecords]
      | some sid =>
        by_cases hs : pyTruthy sid = true
        · cases hf : pyFormat env.prefs.request_url
              (formatParamsOf title authors identifiers) with
          | error e =>
            cases e <;> simp [identify, hc, hs, hf, emittedRecords]
          | ok url =>
            by_cases hq : queryOf identifiers title = ""
            · simp [identify, hc, hs, hf, hq, emittedRecords]
            · simp [identify, hc, hs, hf, hq, h, emptyResultResp, retrieveResult, getD,
                lookupV, pyTruthy_nil, emittedRecords]
        · simp only [Bool.not_eq_true] at hs
          simp [identify, hc, hs, emittedRecords]
  · intro sid url h1 hs h2 h3
    simp [identify, h1, hs, h2, h3, h, emptyResultResp, retrieveResult, getD,
      lookupV, pyTruthy_nil]

/-- Demo environment for the witnesses: session ok, actions string
unparseable, retrieval answering `{"result": []}`. -/
def demoEnvEmpty : Env :=
  { prefs := demoPrefs
    sessionResp := demoSession
    retrieveResp := emptyResultResp }

/-- Witness for claim C4 on a concrete environment with an ISBN query: the
retrieval call happens, the empty result emits nothing and identify
returns. -/
theorem identify_empty_result_emits_nothing_witness :
    demoEnvEmpty.retrieveResp = emptyResultResp ∧
      (emittedRecords (identify demoEnvEmpty none none [("isbn", "9")]).1 = [] ∧
        (∀ sid url,
          create_session demoEnvEmpty.sessionResp = PyResult.val (some sid) →
          pyTruthy sid = true →
          pyFormat demoEnvEmpty.prefs.request_url
              (formatParamsOf none none [("isbn", "9")]) = Except.ok url →
          queryOf [("isbn", "9")] none ≠ "" →
          identify demoEnvEmpty none none [("isbn", "9")] =
            ([Event.sessionCall, Event.urlFormatted url,
              Event.retrieveCall
                (buildRequest demoEnvEmpty.prefs sid (queryOf [("isbn", "9")] none) url)],
             PyResult.val ()))) :=
  ⟨rfl, identify_empty_result_emits_nothing _ _ _ _ rfl⟩

/-- Quoting the empty string yields the empty string. -/
theorem quote_empty : quote "" = "" := rfl

/-- The guarded assignment `if x: params[k] = quote(x)` coincides with
unconditional quoting, because quoting the empty string is the empty
string. -/
theorem quote_default (s : String) : (if s ≠ "" then quote s else "") = quote s := by
  by_cases h : s = ""
  · rw [if_neg (by simp [h])]
    rw [h]
    rfl
  · rw [if_pos h]

/-- Claim C7 (amended): the format parameters are exactly the
independently percent-encoded isbn, title and first author (unset inputs
defaulting to the empty string), and when the template names an
unrecognized NAMED placeholder — a `KeyError` from `str.format` — the
identify attempt aborts cleanly after the session call: the error is
caught at line 117, nothing is emitted and no retrieval happens.  The
restriction to named placeholders is forced by the counterexample below:
a positional placeholder raises an uncaught `IndexError` instead. -/
theorem identify_template_keyerror_aborts (env : Env) (title : Option String)
    (authors : Option (List String)) (identifiers : List (String × String))
    (sid : Value)
    (h1 : create_session env.sessionResp = PyResult.val (some sid))
    (h2 : ∃ k, pyFormat env.prefs.request_url (formatParamsOf title authors identifiers) =
        Except.error (PyExc.keyError k)) :
    formatParamsOf title authors identifiers =
        [("isbn", quote (lookupD identifiers "isbn" "")),
         ("title", quote (optStr title)),
         ("author", quote (firstAuthor authors))] ∧
      identify env title authors identifiers =
        ([Event.sessionCall], PyResult.val ()) := by
  constructor
  · unfold formatParamsOf optStr firstAuthor
    cases title <;> rcases authors with _ | (_ | ⟨a, as⟩) <;>
      simp [quote_default, quote_empty]
    all_goals
      first
      | exact fun h3 => by rw [h3, quote_empty]
      | exact ⟨fun h3 => by rw [h3, quote_empty], fun h3 => by rw [h3, quote_empty]⟩
      | refine ⟨fun h3 => by rw [h3, quote_empty], fun h3 => by rw [h3, quote_empty], fun h3 => by rw [h3, quote_empty]⟩
  · obtain ⟨k, hk⟩ := h2
    by_cases hs : pyTruthy sid = true
    · simp [identify, h1, hs, hk]
    · simp only [Bool.not_eq_true] at hs
      simp [identify, h1, hs]

/-- Demo environment whose URL template names the unrecognized placeholder
`bad`; the session call succeeds. -/
def envBadTemplate : Env :=
  { prefs :=
      { request_url := "u{bad}"
        actionsPref := Body.json (Value.list [])
        cmd := ""
        scroll_to_bottom := false
        max_items := -1 }
    sessionResp := demoSession
    retrieveResp := NetResult.connError "never reached" }

/-- Witness for claim C7 at concrete inputs: with template "u{bad}" and
inputs isbn "123", title "Go", authors ["Jane Doe"], formatting raises
`KeyError` "bad", identify aborts after the session call, and the format
parameters are the percent-encoded inputs ("Jane Doe" encoding to
"Jane%20Doe"). -/
theorem identify_template_keyerror_aborts_witness :
    create_session envBadTemplate.sessionResp = PyResult.val (some (Value.str "S")) ∧
      (∃ k, pyFormat envBadTemplate.prefs.request_url
          (formatParamsOf (some "Go") (some ["Jane Doe"]) [("isbn", "123")]) =
        Except.error (PyExc.keyError k)) ∧
      (formatParamsOf (some "Go") (some ["Jane Doe"]) [("isbn", "123")] =
          [("isbn", quote (lookupD [("isbn", "123")] "isbn" "")),
           ("title", quote (optStr (some "Go"))),
           ("author", quote (firstAuthor (some ["Jane Doe"])))] ∧
        identify envBadTemplate (some "Go") (some ["Jane Doe"]) [("isbn", "123")] =
          ([Event.sessionCall], PyResult.val ())) ∧
      quote (firstAuthor (some ["Jane Doe"])) = "Jane%20Doe" := by
  have h1 : create_session envBadTemplate.sessionResp =
      PyResult.val (some (Value.str "S")) := rfl
  have h2 : ∃ k, pyFormat envBadTemplate.prefs.request_url
      (formatParamsOf (some "Go") (some ["Jane Doe"]) [("isbn", "123")]) =
        Except.error (PyExc.keyError k) := ⟨"bad", rfl⟩
  exact ⟨h1, h2,
    identify_template_keyerror_aborts envBadTemplate (some "Go") (some ["Jane Doe"])
      [("isbn", "123")] (Value.str "S") h1 h2, by decide⟩

/-- Demo environment whose URL template uses the positional placeholder 0;
the session call succeeds. -/
def envPositional : Env :=
  { prefs :=
      { request_url := "u\x7b0\x7d"
        actionsPref := Body.json (Value.list [])
        cmd := ""
        scroll_to_bottom := false
        max_items := -1 }
    sessionResp := demoSession
    retrieveResp := NetResult.connError "never reached" }

/-- Claim C7 (counterexample): the positional placeholder 0 is a
placeholder outside the recognized set, yet the identify attempt is NOT
aborted cleanly: `str.format` raises `IndexError` (the plugin passes only
keyword arguments), line 117's `except KeyError` does not catch it, and the
exception escapes identify — the attempt crashes instead of being reported
with a clean return. -/
theorem identify_positional_placeholder_crashes :
    pyFormat "u\x7b0\x7d" (formatParamsOf none none [("isbn", "9")]) =
        Except.error (PyExc.indexError
          "Replacement index 0 out of range for positional args tuple") ∧
      identify envPositional none none [("isbn", "9")] =
        ([Event.sessionCall],
         PyResult.exc (PyExc.indexError
           "Replacement index 0 out of range for positional args tuple")) :=
  ⟨rfl, rfl⟩

/-- Claim C9: when the configured actions string is not parseable JSON, the
retrieval request is still built and sent — the retrieval POST appears in
the trace whenever the flow reaches it — and its body carries the empty
action list substituted by the parse-failure handler. -/
theorem identify_bad_actions_still_retrieves (env : Env) (title : Option String)
    (authors : Option (List String)) (identifiers : List (String × String))
    (sid : Value) (url raw : String)
    (h1 : create_session env.sessionResp = PyResult.val (some sid))
    (hsid : pyTruthy sid = true)
    (h2 : pyFormat env.prefs.request_url (formatParamsOf title authors identifiers) =
        Except.ok url)
    (h3 : queryOf identifiers title ≠ "")
    (h4 : env.prefs.actionsPref = Body.notJson raw) :
    Event.retrieveCall (buildRequest env.prefs sid (queryOf identifiers title) url) ∈
        (identify env title authors identifiers).1 ∧
      (buildRequest env.prefs sid (queryOf identifiers title) url).actions =
        Value.list [] := by
  constructor
  · cases hr : retrieveResult env.retrieveResp with
    | exc e => simp [identify, h1, hsid, h2, h3, hr]
    | val o =>
      cases o with
      | none => simp [identify, h1, hsid, h2, h3, hr]
      | some data =>
        by_cases ht : pyTruthy data = true
        · cases data <;> simp [identify, h1, hsid, h2, h3, hr, ht]
        · rw [identify, h1, h2]
          simp [hsid, h3, hr, ht]
  · simp [buildRequest, parseActions, h4]

/-- Demo environment with the unparseable actions string of `demoPrefs` and
a failing retrieval transport. -/
def envBadActions : Env :=
  { prefs := demoPrefs
    sessionResp := demoSession
    retrieveResp := NetResult.connError "down" }

/-- Witness for claim C9 on a concrete environment: the actions string
"not json" parses to the empty action list, and the retrieval POST is still
issued. -/
theorem identify_bad_actions_still_retrieves_witness :
    create_session envBadActions.sessionResp = PyResult.val (some (Value.str "S")) ∧
      pyTruthy (Value.str "S") = true ∧
      pyFormat envBadActions.prefs.request_url
          (formatParamsOf none none [("isbn", "9")]) = Except.ok "s9" ∧
      queryOf [("isbn", "9")] none ≠ "" ∧
      envBadActions.prefs.actionsPref = Body.notJson "not json" ∧
      (Event.retrieveCall
          (buildRequest envBadActions.prefs (Value.str "S") (queryOf [("isbn", "9")] none) "s9") ∈
          (identify envBadActions none none [("isbn", "9")]).1 ∧
        (buildRequest envBadActions.prefs (Value.str "S")
            (queryOf [("isbn", "9")] none) "s9").actions = Value.list []) := by
  have h3 : queryOf [("isbn", "9")] none ≠ "" := by decide
  exact ⟨rfl, rfl, rfl, h3, rfl,
    identify_bad_actions_still_retrieves envBadActions none none [("isbn", "9")]
      (Value.str "S") "s9" "not json" rfl rfl rfl h3 rfl⟩

/-- Claim C10: when neither an ISBN nor a title is supplied, the session
POST still happens first; when the session succeeds (a truthy session id
passes line 97's gate) and the template formats, the URL-formatting step
still runs (its log event is in the trace) and only then does the
missing-input check end the attempt with zero records emitted — input
validation sits after the first network call. -/
theorem identify_validates_after_session (env : Env) (title : Option String)
    (authors : Option (List String)) (identifiers : List (String × String))
    (h1 : lookupD identifiers "isbn" "" = "") (h2 : optStr title = "") :
    Event.sessionCall ∈ (identify env title authors identifiers).1 ∧
      emittedRecords (identify env title authors identifiers).1 = [] ∧
      (∀ sid url,
        create_session env.sessionResp = PyResult.val (some sid) →
        pyTruthy sid = true →
        pyFormat env.prefs.request_url (formatParamsOf title authors identifiers) =
          Except.ok url →
        identify env title authors identifiers =
          ([Event.sessionCall, Event.urlFormatted url], PyResult.val ())) := by
  have hq : queryOf identifiers title = "" := by
    unfold queryOf
    rw [h1, h2]
    simp
  refine ⟨?_, ?_, ?_⟩
  · cases hc : create_session env.sessionResp with
    | exc e => simp [identify, hc]
    | val o =>
      cases o with
      | none => simp [identify, hc]
      | some sid =>
        by_cases hs : pyTruthy sid = true
        · cases hf : pyFormat env.prefs.request_url
              (formatParamsOf title authors identifiers) with
          | error e => cases e <;> simp [identify, hc, hs, hf]
          | ok url => simp [identify, hc, hs, hf, hq]
        · simp only [Bool.not_eq_true] at hs
          simp [identify, hc, hs]
  · cases hc : create_session env.sessionResp with
    | exc e => simp [identify, hc, emittedRecords]
    | val o =>
      cases o with
      | none => simp [identify, hc, emittedRecords]
      | some sid =>
        by_cases hs : pyTruthy sid = true
        · cases hf : pyFormat env.prefs.request_url
              (formatParamsOf title authors identifiers) with
          | error e => cases e <;> simp [identify, hc, hs, hf, emittedRecords]
          | ok url => simp [identify, hc, hs, hf, hq, emittedRecords]
        · simp only [Bool.not_eq_true] at hs
          simp [identify, hc, hs, emittedRecords]
  · intro sid url hc hs hf
    simp [identify, hc, hs, hf, hq]

/-- Witness for claim C10 on a concrete environment with no ISBN and no
title: the trace is exactly the session call followed by the formatted-URL
log, nothing is emitted and the attempt returns cleanly. -/
theorem identify_validates_after_session_witness :
    lookupD [] "isbn" "" = "" ∧ optStr (none : Option String) = "" ∧
      (Event.sessionCall ∈ (identify envBadActions none none []).1 ∧
        emittedRecords (identify envBadActions none none []).1 = [] ∧
        (∀ sid url,
          create_session envBadActions.sessionResp = PyResult.val (some sid) →
          pyTruthy sid = true →
          pyFormat envBadActions.prefs.request_url (formatParamsOf none none []) =
            Except.ok url →
          identify envBadActions none none [] =
            ([Event.sessionCall, Event.urlFormatted url], PyResult.val ()))) :=
  ⟨rfl, rfl, identify_validates_after_session envBadActions none none [] rfl rfl⟩
